import Mathlib

/-!
Verification of `scylla/src/serialize/value_serializer.rs`: a dispatch
layer deciding how and when query bind values are encoded for a prepared
statement.  Pure functions of the Rust source are embedded as Lean
functions; the external encoder collaborator is an abstract function
carried by the prepared-statement model.
-/

/-- An encoded buffer of serialized bind values (`SerializedValues` from
`scylla_cql`): opaque to this layer beyond referencing, owning, and an
emptiness check.  Modelled as a byte sequence. -/
abbrev SerializedValues := List Nat

/-- Emptiness check of the stored buffer (`SerializedValues::is_empty`). -/
def SerializedValues.is_empty (v : SerializedValues) : Bool :=
  v.isEmpty

/-- An encode failure (`scylla_cql::serialize::SerializationError`),
opaque to this layer; it is propagated unchanged. -/
structure SerializationError where
  code : Nat
deriving DecidableEq, Repr

/-- Modelled from the spec: the capability making a typed value collection
acceptable as raw bind values (`SerializeRow`); this layer only uses its
emptiness check, the encoding itself being delegated to the statement's
encoder. -/
class SerializeRow (T : Type) where
  is_empty : T → Bool

/-- Modelled from the spec: the prepared-statement metadata collaborator
together with the external encoder
`encode(statement_metadata, values) -> Result<EncodedBuffer, EncodeError>`
(`PreparedStatement::serialize_values` in the repository, outside this
module).  The layer treats it as opaque and forwards its result or error
unchanged, so it is modelled as an arbitrary function from values to an
encode result. -/
structure PreparedStatement (T : Type) where
  serialize_values : T → Except SerializationError SerializedValues

/-- Borrowed serializer for raw Rust values: internally owns a
`SerializedValues` buffer created at construction
(`BorrowedValueSerializer`). -/
structure BorrowedValueSerializer where
  values : SerializedValues
deriving DecidableEq

/-- Constructor `BorrowedValueSerializer::new`. -/
def BorrowedValueSerializer.new (values : SerializedValues) : BorrowedValueSerializer :=
  { values := values }

/-- Accessor `BorrowedValueSerializer::as_serialized`: returns the owned
buffer by reference. -/
def BorrowedValueSerializer.as_serialized (s : BorrowedValueSerializer) : SerializedValues :=
  s.values

/-- Borrowed serializer for pre-serialized values: wraps a reference to an
existing buffer (`BorrowedPreSerializedSerializer`).  The Rust reference
`&SerializedValues` is modelled by the referenced value. -/
structure BorrowedPreSerializedSerializer where
  values : SerializedValues
deriving DecidableEq

/-- Constructor `BorrowedPreSerializedSerializer::new`. -/
def BorrowedPreSerializedSerializer.new (values : SerializedValues) :
    BorrowedPreSerializedSerializer :=
  { values := values }

/-- Accessor `BorrowedPreSerializedSerializer::as_serialized`. -/
def BorrowedPreSerializedSerializer.as_serialized (s : BorrowedPreSerializedSerializer) :
    SerializedValues :=
  s.values

/-- Owned serializer for raw Rust values: holds the prepared statement
reference and the moved values, encoding lazily on consumption
(`OwnedValueSerializer`). -/
structure OwnedValueSerializer (T : Type) where
  prepared : PreparedStatement T
  values : T

/-- Constructor `OwnedValueSerializer::new`. -/
def OwnedValueSerializer.new (prepared : PreparedStatement T) (values : T) :
    OwnedValueSerializer T :=
  { prepared := prepared, values := values }

/-- Consumer `OwnedValueSerializer::into_serialized`: invokes the external
encoder on the held statement and values. -/
def OwnedValueSerializer.into_serialized (s : OwnedValueSerializer T) :
    Except SerializationError SerializedValues :=
  s.prepared.serialize_values s.values

/-- Owned serializer for pre-serialized values: consumption moves out the
stored buffer without cloning (`OwnedPreSerializedSerializer`). -/
structure OwnedPreSerializedSerializer where
  values : SerializedValues
deriving DecidableEq

/-- Constructor `OwnedPreSerializedSerializer::new`. -/
def OwnedPreSerializedSerializer.new (values : SerializedValues) :
    OwnedPreSerializedSerializer :=
  { values := values }

/-- Consumer `OwnedPreSerializedSerializer::into_serialized`: returns
`Ok` of the stored buffer. -/
def OwnedPreSerializedSerializer.into_serialized (s : OwnedPreSerializedSerializer) :
    Except SerializationError SerializedValues :=
  Except.ok s.values

/-- Supplier for raw Rust values `T` (`ValuesSerializationSupplier`). -/
structure ValuesSerializationSupplier (T : Type) where
  values : T

/-- Constructor `ValuesSerializationSupplier::new`. -/
def ValuesSerializationSupplier.new (values : T) : ValuesSerializationSupplier T :=
  { values := values }

/-- The `is_empty` of the `NonConsumingSupplier` impl for
`ValuesSerializationSupplier`: delegates to the wrapped values. -/
def ValuesSerializationSupplier.nonConsuming_is_empty [SerializeRow T]
    (s : ValuesSerializationSupplier T) : Bool :=
  SerializeRow.is_empty s.values

/-- The `is_empty` of the `ConsumingSupplier` impl for
`ValuesSerializationSupplier`: delegates to the wrapped values. -/
def ValuesSerializationSupplier.consuming_is_empty [SerializeRow T]
    (s : ValuesSerializationSupplier T) : Bool :=
  SerializeRow.is_empty s.values

/-- Non-consuming path `ValuesSerializationSupplier::for_prepared_borrow`:
serializes immediately for the given prepared statement, propagating any
encode error with `?`, and wraps the fresh buffer in a
`BorrowedValueSerializer`. -/
def ValuesSerializationSupplier.for_prepared_borrow (s : ValuesSerializationSupplier T)
    (prepared : PreparedStatement T) :
    Except SerializationError BorrowedValueSerializer := do
  let values ← prepared.serialize_values s.values
  return BorrowedValueSerializer.new values

/-- Consuming path `ValuesSerializationSupplier::into_owned_serializer`:
moves out `T`; actual serialization is deferred to
`OwnedValueSerializer::into_serialized`. -/
def ValuesSerializationSupplier.into_owned_serializer (s : ValuesSerializationSupplier T)
    (prepared : PreparedStatement T) :
    Except SerializationError (OwnedValueSerializer T) :=
  Except.ok (OwnedValueSerializer.new prepared s.values)

/-- Supplier for pre-serialized values (`PreSerializedSupplier`). -/
structure PreSerializedSupplier where
  values : SerializedValues
deriving DecidableEq

/-- Constructor `PreSerializedSupplier::new`. -/
def PreSerializedSupplier.new (values : SerializedValues) : PreSerializedSupplier :=
  { values := values }

/-- The `is_empty` of the `NonConsumingSupplier` impl for
`PreSerializedSupplier`: emptiness of the stored buffer. -/
def PreSerializedSupplier.nonConsuming_is_empty (s : PreSerializedSupplier) : Bool :=
  s.values.is_empty

/-- The `is_empty` of the `ConsumingSupplier` impl for
`PreSerializedSupplier`: emptiness of the stored buffer. -/
def PreSerializedSupplier.consuming_is_empty (s : PreSerializedSupplier) : Bool :=
  s.values.is_empty

/-- Non-consuming path `PreSerializedSupplier::for_prepared_borrow`: no
serialization; just borrows the stored values, ignoring the statement. -/
def PreSerializedSupplier.for_prepared_borrow (s : PreSerializedSupplier)
    (_prepared : PreparedStatement T) :
    Except SerializationError BorrowedPreSerializedSerializer :=
  Except.ok (BorrowedPreSerializedSerializer.new s.values)

/-- Consuming path `PreSerializedSupplier::into_owned_serializer`: moves
out the pre-serialized values without cloning, ignoring the statement. -/
def PreSerializedSupplier.into_owned_serializer (s : PreSerializedSupplier)
    (_prepared : PreparedStatement T) :
    Except SerializationError OwnedPreSerializedSerializer :=
  Except.ok (OwnedPreSerializedSerializer.new s.values)

/-- The non-consuming raw-value path equals the external encoder's result
mapped into a borrowed serializer. -/
theorem for_prepared_borrow_spec {T : Type} (s : ValuesSerializationSupplier T)
    (prepared : PreparedStatement T) :
    s.for_prepared_borrow prepared =
      (prepared.serialize_values s.values).map BorrowedValueSerializer.new := by
  unfold ValuesSerializationSupplier.for_prepared_borrow
  cases prepared.serialize_values s.values <;> rfl

/-- An identity-encoder statement used as a concrete test input. -/
def idStatement : PreparedStatement (List Nat) :=
  { serialize_values := fun v => Except.ok v }

/-- An encode failure standing for an arity mismatch. -/
def arityError : SerializationError :=
  { code := 1 }

/-- A statement with two bind markers whose encoder rejects any value list
that does not have exactly two entries. -/
def arityTwoStatement : PreparedStatement (List Nat) :=
  { serialize_values := fun v =>
      if v.length = 2 then Except.ok v else Except.error arityError }

/-- C1: two independent non-consuming borrow calls of a raw-value supplier
against the same prepared statement yield borrowed serializers whose
encoded buffers have identical content; the supplier, taken by shared
reference, is a pure input of each call. -/
theorem C1_nonConsuming_borrow_pure {T : Type} (s : ValuesSerializationSupplier T)
    (prepared : PreparedStatement T) (b1 b2 : BorrowedValueSerializer)
    (h1 : s.for_prepared_borrow prepared = Except.ok b1)
    (h2 : s.for_prepared_borrow prepared = Except.ok b2) :
    b1.as_serialized = b2.as_serialized := by
  injection h1.symm.trans h2 with h
  rw [h]

/-- C1 witness: both borrow calls on the supplier of values [5, 7] against
the identity-encoder statement yield the buffer [5, 7]. -/
theorem C1_nonConsuming_borrow_pure_witness :
    (BorrowedValueSerializer.new [5, 7]).as_serialized =
      (BorrowedValueSerializer.new [5, 7]).as_serialized :=
  C1_nonConsuming_borrow_pure (ValuesSerializationSupplier.new [5, 7]) idStatement
    (BorrowedValueSerializer.new [5, 7]) (BorrowedValueSerializer.new [5, 7]) rfl rfl

/-- C2: when the non-consuming raw-value path succeeds, the buffer exposed
by the borrowed serializer's as_serialized equals exactly the buffer the
external encoder returns for the same statement and values. -/
theorem C2_borrow_equals_direct_encode {T : Type} (s : ValuesSerializationSupplier T)
    (prepared : PreparedStatement T) (b : BorrowedValueSerializer)
    (h : s.for_prepared_borrow prepared = Except.ok b) :
    prepared.serialize_values s.values = Except.ok b.as_serialized := by
  rw [for_prepared_borrow_spec] at h
  cases hv : prepared.serialize_values s.values with
  | error e =>
    rw [hv] at h
    exact absurd h (by simp [Except.map])
  | ok v =>
    rw [hv] at h
    injection h with h
    rw [← h]
    rfl

/-- C2 witness: for values [5, 7] and the identity-encoder statement, the
borrow call succeeds and its buffer equals the encoder's direct output. -/
theorem C2_borrow_equals_direct_encode_witness :
    idStatement.serialize_values [5, 7] =
      Except.ok (BorrowedValueSerializer.new [5, 7]).as_serialized :=
  C2_borrow_equals_direct_encode (ValuesSerializationSupplier.new [5, 7]) idStatement
    (BorrowedValueSerializer.new [5, 7]) rfl

/-- C3: the consuming raw-value path performs no encoding, returning Ok of
an owned serializer that merely packages the statement and the moved
values; consuming that serializer returns exactly the external encoder's
result on that statement and those values. -/
theorem C3_consuming_defers_encoding {T : Type} (s : ValuesSerializationSupplier T)
    (prepared : PreparedStatement T) :
    s.into_owned_serializer prepared =
      Except.ok (OwnedValueSerializer.new prepared s.values) ∧
    (OwnedValueSerializer.new prepared s.values).into_serialized =
      prepared.serialize_values s.values :=
  ⟨rfl, rfl⟩

/-- C4: the pre-serialized non-consuming borrow always succeeds, performs
no encoding, exposes content equal to the stored buffer B exactly, and its
result is independent of the statement argument. -/
theorem C4_preSerialized_borrow_is_view {T : Type} (B : SerializedValues)
    (p q : PreparedStatement T) :
    (PreSerializedSupplier.new B).for_prepared_borrow p =
      Except.ok (BorrowedPreSerializedSerializer.new B) ∧
    (BorrowedPreSerializedSerializer.new B).as_serialized = B ∧
    (PreSerializedSupplier.new B).for_prepared_borrow p =
      (PreSerializedSupplier.new B).for_prepared_borrow q :=
  ⟨rfl, rfl, rfl⟩

/-- C5: both fallible pre-serialized operations always return Ok, and the
consuming path's final result is the stored buffer B itself. -/
theorem C5_preSerialized_never_fails {T : Type} (B : SerializedValues)
    (p : PreparedStatement T) :
    (PreSerializedSupplier.new B).into_owned_serializer p =
      Except.ok (OwnedPreSerializedSerializer.new B) ∧
    (OwnedPreSerializedSerializer.new B).into_serialized = Except.ok B :=
  ⟨rfl, rfl⟩

/-- C6: under both supplier interfaces, is_empty of a raw-value supplier
equals the emptiness of its wrapped values, and is_empty of a
pre-serialized supplier equals the emptiness of its stored buffer. -/
theorem C6_is_empty_delegates {T : Type} [SerializeRow T]
    (s : ValuesSerializationSupplier T) (ps : PreSerializedSupplier) :
    s.nonConsuming_is_empty = SerializeRow.is_empty s.values ∧
    s.consuming_is_empty = SerializeRow.is_empty s.values ∧
    ps.nonConsuming_is_empty = ps.values.is_empty ∧
    ps.consuming_is_empty = ps.values.is_empty :=
  ⟨rfl, rfl, rfl, rfl⟩

/-- C7: when the external encoder fails for a (statement, values) pair,
the non-consuming raw-value path and the consuming raw-value path both
surface exactly that encode error, unchanged. -/
theorem C7_encode_failure_propagates {T : Type} (s : ValuesSerializationSupplier T)
    (prepared : PreparedStatement T) (e : SerializationError)
    (h : prepared.serialize_values s.values = Except.error e) :
    s.for_prepared_borrow prepared = Except.error e ∧
    (s.into_owned_serializer prepared).bind OwnedValueSerializer.into_serialized =
      Except.error e := by
  constructor
  · rw [for_prepared_borrow_spec, h]
    rfl
  · exact h

/-- C7 witness: a single value against the two-bind-marker statement is an
arity mismatch; both raw-value paths surface the encoder's error. -/
theorem C7_encode_failure_propagates_witness :
    (ValuesSerializationSupplier.new [5]).for_prepared_borrow arityTwoStatement =
      Except.error arityError ∧
    ((ValuesSerializationSupplier.new [5]).into_owned_serializer
        arityTwoStatement).bind OwnedValueSerializer.into_serialized =
      Except.error arityError :=
  C7_encode_failure_propagates (ValuesSerializationSupplier.new [5]) arityTwoStatement
    arityError rfl

/-- C9: every serializer constructor/accessor pair round-trips exactly:
as_serialized recovers the constructed buffer and into_serialized on a
pre-serialized owned serializer returns Ok of it. -/
theorem C9_constructor_accessor_roundtrip (v : SerializedValues) :
    (BorrowedValueSerializer.new v).as_serialized = v ∧
    (BorrowedPreSerializedSerializer.new v).as_serialized = v ∧
    (OwnedPreSerializedSerializer.new v).into_serialized = Except.ok v :=
  ⟨rfl, rfl, rfl⟩

/-- C10: the consuming call into_owned_serializer on a raw-value supplier
always returns Ok, even for mismatched values, because encoding is wholly
deferred to the owned serializer's consumption step. -/
theorem C10_into_owned_always_ok {T : Type} (s : ValuesSerializationSupplier T)
    (prepared : PreparedStatement T) :
    s.into_owned_serializer prepared =
      Except.ok (OwnedValueSerializer.new prepared s.values) :=
  rfl
